import Mathlib

/-!
# Verification of the snag capture/dispatch core

Shallow embedding of the snag repository (src/snag/platform.py, capture.py,
mcp_client.py, vision.py, config.py) and proofs of the specification claims.

Effectful Python code is modelled by explicit environment passing: the process
environment is a function `String → Option String` (mirrors `os.environ.get`),
subprocess and HTTP outcomes are supplied per call as inductive values, and
side effects (sleeps, HTTP posts, kill signals, temp-file operations) are
recorded in explicit traces so that claims about them can be stated.
-/

namespace Snag

/-! ## platform.py -/

/-- The `Platform` enum of src/snag/platform.py. -/
inductive Platform where
  | LINUX_X11
  | LINUX_WAYLAND
  | WINDOWS
  | MACOS
  | UNKNOWN
deriving DecidableEq, Repr

/-- Python truthiness of an `os.environ.get` result: `None` and the empty
string are falsy, any other string is truthy. -/
def envTruthy : Option String → Bool
  | none => false
  | some s => s ≠ ""

/-- Python's `str.startswith`, as a prefix test on the character list. -/
def pyStartswith (s pre : String) : Bool :=
  pre.data.isPrefixOf s.data

/-- Python's `str.strip()` (no argument): remove leading and trailing
whitespace, modelled on the character list. -/
def pyStrip (s : String) : String :=
  ⟨((s.data.dropWhile Char.isWhitespace).reverse.dropWhile Char.isWhitespace).reverse⟩

/-- `detect_platform` of src/snag/platform.py, with `sys.platform` and the
process environment passed explicitly. -/
def detect_platform (sysPlatform : String) (env : String → Option String) : Platform :=
  if sysPlatform = "win32" then Platform.WINDOWS
  else if sysPlatform = "darwin" then Platform.MACOS
  else if pyStartswith sysPlatform "linux" then
    if envTruthy (env "WAYLAND_DISPLAY") then Platform.LINUX_WAYLAND
    else if env "XDG_SESSION_TYPE" = some "wayland" then Platform.LINUX_WAYLAND
    else if envTruthy (env "DISPLAY") then Platform.LINUX_X11
    else if env "XDG_SESSION_TYPE" = some "x11" then Platform.LINUX_X11
    else Platform.LINUX_X11
  else Platform.UNKNOWN

/-! ## capture.py -/

/-- Exceptions raised by src/snag/capture.py: `CaptureError` carries a
message, `SelectionCancelled` carries none. -/
inductive CapExn where
  | CaptureError (msg : String)
  | SelectionCancelled
deriving DecidableEq, Repr

/-- A normalized screen region as computed in `_capture_with_overlay`
(absolute virtual-desktop pixel coordinates). -/
structure Region where
  x1 : Int
  y1 : Int
  x2 : Int
  y2 : Int
deriving DecidableEq, Repr

/-- The normalization of the two drag corner points at
src/snag/capture.py lines 210-218: componentwise min/max, then
`SelectionCancelled` (here `none`) when either extent is below 5 pixels. -/
def normalizeRegion (s e : Int × Int) : Option Region :=
  let x1 := min s.1 e.1
  let y1 := min s.2 e.2
  let x2 := max s.1 e.1
  let y2 := max s.2 e.2
  if x2 - x1 < 5 ∨ y2 - y1 < 5 then none
  else some ⟨x1, y1, x2, y2⟩

/-- The mutable `selection` dict of `_capture_with_overlay` as it stands when
`root.mainloop()` returns. -/
structure SelectionState where
  cancelled : Bool
  start : Option (Int × Int)
  stop : Option (Int × Int)
deriving DecidableEq, Repr

/-- The tail of `_capture_with_overlay` (src/snag/capture.py lines 207-227):
after the event loop ends, either raise `SelectionCancelled` or produce the
crop box in image-local coordinates (absolute coordinates minus the virtual
desktop origin `(screenX, screenY)`). The actual pixel crop of the
undarkened raster is outside the claims and is not modelled. -/
def overlayFinish (sel : SelectionState) (screenX screenY : Int) :
    Except CapExn Region :=
  if sel.cancelled then Except.error CapExn.SelectionCancelled
  else match sel.start, sel.stop with
    | some s, some e =>
      match normalizeRegion s e with
      | none => Except.error CapExn.SelectionCancelled
      | some r =>
        Except.ok ⟨r.x1 - screenX, r.y1 - screenY, r.x2 - screenX, r.y2 - screenY⟩
    | _, _ => Except.error CapExn.SelectionCancelled

/-- Result of one `subprocess.run` invocation: exit code and captured
standard output (text mode). -/
structure SubprocResult where
  returncode : Int
  stdout : String
deriving DecidableEq, Repr

/-- The external-tool environment `_capture_wayland` runs against:
whether `which slurp` / `which grim` succeed, the result of running
`slurp`, and the result of running `grim -g <region> -` on a given
geometry string (exit code and raw image bytes on stdout), plus the
rendered text of grim's `CalledProcessError` should it fail. -/
structure WaylandWorld where
  whichSlurp : Bool
  whichGrim : Bool
  slurpRun : SubprocResult
  grimRun : String → Int × List Nat
  grimErrStr : String

/-- The `CaptureError` message of src/snag/capture.py lines 53-57. -/
def waylandMissingToolsMsg : String :=
  "Wayland capture requires 'slurp' and 'grim'.\n" ++
  "Install with: sudo apt install slurp grim  # Debian/Ubuntu\n" ++
  "             sudo dnf install slurp grim   # Fedora"

/-- `_capture_wayland` of src/snag/capture.py lines 46-80. `check=True` on a
non-zero exit raises `CalledProcessError`, modelled by testing the return
code. The returned value is the raw bytes read from grim's stdout (the
`Image.open` decode is external and not modelled). -/
def _capture_wayland (w : WaylandWorld) : Except CapExn (List Nat) :=
  if ¬ (w.whichSlurp ∧ w.whichGrim) then
    Except.error (CapExn.CaptureError waylandMissingToolsMsg)
  else if w.slurpRun.returncode ≠ 0 then
    Except.error CapExn.SelectionCancelled
  else
    let region := pyStrip w.slurpRun.stdout
    if region = "" then
      Except.error CapExn.SelectionCancelled
    else
      let g := w.grimRun region
      if g.1 ≠ 0 then
        Except.error (CapExn.CaptureError ("grim capture failed: " ++ w.grimErrStr))
      else
        Except.ok g.2

/-! ## mcp_client.py -/

/-- `MCPError` of src/snag/mcp_client.py. -/
inductive MCPErr where
  | MCPError (msg : String)
deriving DecidableEq, Repr

/-- The mutable fields of an `MCPClient` instance: constructor arguments are
not tracked beyond `timeout`; `_process` is `Some pid` when a subprocess is
attached, and `_request_id` is the id counter. -/
structure MCPClient where
  timeout : Nat
  _process : Option Nat
  _request_id : Nat
deriving DecidableEq, Repr

/-- `MCPClient.__init__`: no process, id counter 0. -/
def MCPClient.mk0 (timeout : Nat) : MCPClient :=
  ⟨timeout, none, 0⟩

/-- Signals sent to the subprocess by `_kill_process`, recorded as a trace. -/
inductive KillAct where
  | terminate (pid : Nat)
  | kill (pid : Nat)
deriving DecidableEq, Repr

/-- `MCPClient._kill_process` (src/snag/mcp_client.py lines 116-127):
no-op when no process is attached; otherwise `terminate()` then
`wait(timeout=5)`, escalating to `kill()` when the graceful wait fails
(`gracefulOk = false`), swallowing every exception, and clearing
`_process` in all cases. It never raises. -/
def MCPClient._kill_process (c : MCPClient) (gracefulOk : Bool) :
    MCPClient × List KillAct :=
  match c._process with
  | none => (c, [])
  | some pid =>
    ({ c with _process := none },
     if gracefulOk then [KillAct.terminate pid]
     else [KillAct.terminate pid, KillAct.kill pid])

/-- `MCPClient.disconnect` (src/snag/mcp_client.py lines 165-167): exactly
`_kill_process`. -/
def MCPClient.disconnect (c : MCPClient) (gracefulOk : Bool) :
    MCPClient × List KillAct :=
  MCPClient._kill_process c gracefulOk

/-- What one blocking `readline` (run on the helper thread of `_recv`)
delivers to the caller within the timeout window: a line that parses as
JSON, end of stream, a line that fails to parse, or nothing at all before
`join(timeout)` returns (the thread is still alive). JSON values are kept
abstract as strings. -/
inductive RecvEvent where
  | reply (line : String)
  | closed
  | badJson (e : String)
  | timeoutExpired (gracefulOk : Bool)
deriving DecidableEq, Repr

/-- `MCPClient._recv` (src/snag/mcp_client.py lines 49-83): fails when
unconnected; on timeout kills the subprocess and raises the timeout
`MCPError`; surfaces EOF and parse failures as `MCPError`; otherwise
returns the parsed line. The returned trace records signals sent to the
subprocess. -/
def MCPClient._recv (c : MCPClient) (ev : RecvEvent) :
    (MCPClient × List KillAct) × Except MCPErr String :=
  match c._process with
  | none => ((c, []), Except.error (MCPErr.MCPError "MCP server not connected"))
  | some _ =>
    match ev with
    | RecvEvent.reply line => ((c, []), Except.ok line)
    | RecvEvent.closed =>
      ((c, []), Except.error (MCPErr.MCPError "MCP server closed connection"))
    | RecvEvent.badJson e =>
      ((c, []), Except.error (MCPErr.MCPError ("Invalid JSON from MCP server: " ++ e)))
    | RecvEvent.timeoutExpired gracefulOk =>
      (MCPClient._kill_process c gracefulOk,
       Except.error (MCPErr.MCPError
         ("MCP server did not respond within " ++ toString c.timeout ++ "s")))

/-! ## config.py -/

/-- One entry of the `GOOGLE_MODELS` dict of src/snag/config.py. -/
structure ModelConfig where
  endpoint : String
  version : String
deriving DecidableEq, Repr

/-- `GOOGLE_MODELS` of src/snag/config.py (an association list; iteration
order matches the Python dict's insertion order). -/
def GOOGLE_MODELS : List (String × ModelConfig) :=
  [("gemini-2.5-flash",
    ⟨"https://generativelanguage.googleapis.com/v1beta/models/gemini-2.5-flash:generateContent",
     "2.5"⟩),
   ("gemini-3-flash-preview",
    ⟨"https://generativelanguage.googleapis.com/v1alpha/models/gemini-3-flash-preview:generateContent",
     "3.x"⟩)]

/-- `DEFAULT_MODEL` of src/snag/config.py. -/
def DEFAULT_MODEL : String := "gemini-2.5-flash"

/-- `DEFAULT_PROVIDER` of src/snag/config.py. -/
def DEFAULT_PROVIDER : String := "google"

/-! ## vision.py -/

/-- `VisionError` of src/snag/vision.py. -/
inductive VisionErr where
  | VisionError (msg : String)
deriving DecidableEq, Repr

/-- `get_gemini_api_key` (src/snag/vision.py lines 71-80): `os.environ.get`
then the Python truthiness test `if not key` (missing or empty both fail). -/
def get_gemini_api_key (env : String → Option String) : Except VisionErr String :=
  match env "GEMINI_API_KEY" with
  | some key =>
    if key ≠ "" then Except.ok key
    else Except.error (VisionErr.VisionError
      ("GEMINI_API_KEY not found.\nGet an API key at: https://aistudio.google.com/apikey\n" ++
       "Run 'snag --setup' to configure."))
  | none => Except.error (VisionErr.VisionError
      ("GEMINI_API_KEY not found.\nGet an API key at: https://aistudio.google.com/apikey\n" ++
       "Run 'snag --setup' to configure."))

/-- `get_openrouter_api_key` (src/snag/vision.py lines 83-92). -/
def get_openrouter_api_key (env : String → Option String) : Except VisionErr String :=
  match env "OPENROUTER_API_KEY" with
  | some key =>
    if key ≠ "" then Except.ok key
    else Except.error (VisionErr.VisionError
      ("OPENROUTER_API_KEY not found.\nGet an API key at: https://openrouter.ai/keys\n" ++
       "Run 'snag --setup' to configure."))
  | none => Except.error (VisionErr.VisionError
      ("OPENROUTER_API_KEY not found.\nGet an API key at: https://openrouter.ai/keys\n" ++
       "Run 'snag --setup' to configure."))

/-- `get_zai_api_key` (src/snag/vision.py lines 95-104). -/
def get_zai_api_key (env : String → Option String) : Except VisionErr String :=
  match env "Z_AI_API_KEY" with
  | some key =>
    if key ≠ "" then Except.ok key
    else Except.error (VisionErr.VisionError
      ("Z_AI_API_KEY not found.\nGet an API key at: https://open.bigmodel.cn/\n" ++
       "Run 'snag --setup' to configure."))
  | none => Except.error (VisionErr.VisionError
      ("Z_AI_API_KEY not found.\nGet an API key at: https://open.bigmodel.cn/\n" ++
       "Run 'snag --setup' to configure."))

/-- Outcome of one `requests.post` to a vision HTTP endpoint, as the retry
loops of `describe_image_google` / `describe_image_openrouter` discriminate
it: a 200 whose JSON has the expected text field, a 200 whose shape is
unexpected (`KeyError`/`IndexError` while extracting), a 429, any other
status (with the message extracted from the error body or the raw body),
`requests.exceptions.Timeout`, or another `RequestException`. -/
inductive HttpOutcome where
  | ok (text : String)
  | badParse (e : String)
  | status429
  | otherStatus (code : Nat) (msg : String)
  | timeout
  | netError (e : String)
deriving DecidableEq, Repr

/-- The outcomes the HTTP retry loops sleep on and retry (429, transport
timeout, other network failure). -/
def HttpOutcome.retryable : HttpOutcome → Bool
  | HttpOutcome.status429 => true
  | HttpOutcome.timeout => true
  | HttpOutcome.netError _ => true
  | _ => false

/-- The `last_error` value the HTTP retry loops record for a retryable
outcome (the non-retryable cases never reach this assignment; they are
mapped to the loop's fallback error). -/
def HttpOutcome.lastErr : HttpOutcome → VisionErr
  | HttpOutcome.status429 => VisionErr.VisionError "Rate limited (429), retrying..."
  | HttpOutcome.timeout => VisionErr.VisionError "Request timed out"
  | HttpOutcome.netError e => VisionErr.VisionError ("Network error: " ++ e)
  | _ => VisionErr.VisionError "Failed after retries"

deriving instance DecidableEq for Except

/-- Observable run of one provider dispatch: the returned text or raised
`VisionError`, the sequence of `time.sleep` durations in seconds, and how
many HTTP requests were issued and how many loop iterations (attempts)
were entered. -/
structure ProviderRun where
  result : Except VisionErr String
  waits : List Nat
  httpCalls : Nat
  attempts : Nat
deriving DecidableEq, Repr

/-- The `for attempt in range(max_retries)` loop of `describe_image_google`
(src/snag/vision.py lines 211-260), with the outcome of the post at each
attempt supplied by `f`. First argument of the recursion is the number of
remaining iterations, second the current `attempt` index, third the current
`last_error`. A 429 sleeps `2^attempt` and continues; timeout and network
error sleep `2^attempt` and continue; 200 returns the text; a parse failure
or any other status raises at once; an exhausted loop raises
`last_error or VisionError("Failed after retries")`. -/
def googleLoop (f : Nat → HttpOutcome) :
    Nat → Nat → Option VisionErr → ProviderRun
  | 0, _, lastError =>
    ⟨Except.error (lastError.getD (VisionErr.VisionError "Failed after retries")), [], 0, 0⟩
  | r + 1, attempt, _ =>
    match f attempt with
    | HttpOutcome.ok t => ⟨Except.ok t, [], 1, 1⟩
    | HttpOutcome.badParse e =>
      ⟨Except.error (VisionErr.VisionError ("Unexpected API response format: " ++ e)), [], 1, 1⟩
    | HttpOutcome.otherStatus code msg =>
      ⟨Except.error (VisionErr.VisionError
        ("API error (" ++ toString code ++ "): " ++ msg)), [], 1, 1⟩
    | HttpOutcome.status429 =>
      let rest := googleLoop f r (attempt + 1) (some HttpOutcome.status429.lastErr)
      ⟨rest.result, 2 ^ attempt :: rest.waits, rest.httpCalls + 1, rest.attempts + 1⟩
    | HttpOutcome.timeout =>
      let rest := googleLoop f r (attempt + 1) (some HttpOutcome.timeout.lastErr)
      ⟨rest.result, 2 ^ attempt :: rest.waits, rest.httpCalls + 1, rest.attempts + 1⟩
    | HttpOutcome.netError e =>
      let rest := googleLoop f r (attempt + 1) (some (HttpOutcome.netError e).lastErr)
      ⟨rest.result, 2 ^ attempt :: rest.waits, rest.httpCalls + 1, rest.attempts + 1⟩

/-- The `for attempt in range(max_retries)` loop of
`describe_image_openrouter` (src/snag/vision.py lines 310-359); its body is
line-for-line the same retry structure as the Google loop. -/
def openrouterLoop (f : Nat → HttpOutcome) :
    Nat → Nat → Option VisionErr → ProviderRun
  | 0, _, lastError =>
    ⟨Except.error (lastError.getD (VisionErr.VisionError "Failed after retries")), [], 0, 0⟩
  | r + 1, attempt, _ =>
    match f attempt with
    | HttpOutcome.ok t => ⟨Except.ok t, [], 1, 1⟩
    | HttpOutcome.badParse e =>
      ⟨Except.error (VisionErr.VisionError ("Unexpected API response format: " ++ e)), [], 1, 1⟩
    | HttpOutcome.otherStatus code msg =>
      ⟨Except.error (VisionErr.VisionError
        ("API error (" ++ toString code ++ "): " ++ msg)), [], 1, 1⟩
    | HttpOutcome.status429 =>
      let rest := openrouterLoop f r (attempt + 1) (some HttpOutcome.status429.lastErr)
      ⟨rest.result, 2 ^ attempt :: rest.waits, rest.httpCalls + 1, rest.attempts + 1⟩
    | HttpOutcome.timeout =>
      let rest := openrouterLoop f r (attempt + 1) (some HttpOutcome.timeout.lastErr)
      ⟨rest.result, 2 ^ attempt :: rest.waits, rest.httpCalls + 1, rest.attempts + 1⟩
    | HttpOutcome.netError e =>
      let rest := openrouterLoop f r (attempt + 1) (some (HttpOutcome.netError e).lastErr)
      ⟨rest.result, 2 ^ attempt :: rest.waits, rest.httpCalls + 1, rest.attempts + 1⟩

/-- The unknown-model `VisionError` message of src/snag/vision.py lines
167-169 (`available` is the joined key list of `GOOGLE_MODELS`). -/
def unknownGoogleModelMsg (model : String) : String :=
  "Unknown Google model '" ++ model ++ "'. Available: " ++
  String.intercalate ", " (GOOGLE_MODELS.map Prod.fst)

/-- `describe_image_google` (src/snag/vision.py lines 149-260): model
validation against `GOOGLE_MODELS`, then credential lookup, then the retry
loop. The payload built from the model's config (2.5 `inline_data` vs 3.x
`inlineData`) is part of the opaque wire format and only determines the
bytes posted, so it is absorbed into the per-attempt outcome `f`. -/
def describe_image_google (env : String → Option String) (f : Nat → HttpOutcome)
    (model : String) (maxRetries : Nat) : ProviderRun :=
  if (GOOGLE_MODELS.lookup model).isNone then
    ⟨Except.error (VisionErr.VisionError (unknownGoogleModelMsg model)), [], 0, 0⟩
  else
    match get_gemini_api_key env with
    | Except.error e => ⟨Except.error e, [], 0, 0⟩
    | Except.ok _ => googleLoop f maxRetries 0 none

/-- `describe_image_openrouter` (src/snag/vision.py lines 263-359):
credential lookup (no model validation — the model string goes verbatim
into the payload), then the retry loop. -/
def describe_image_openrouter (env : String → Option String) (f : Nat → HttpOutcome)
    (_model : String) (maxRetries : Nat) : ProviderRun :=
  match get_openrouter_api_key env with
  | Except.error e => ⟨Except.error e, [], 0, 0⟩
  | Except.ok _ => openrouterLoop f maxRetries 0 none

/-- Where one iteration of the `describe_image_zai` retry loop
(src/snag/vision.py lines 400-427) first deviates, if anywhere:
`MCPClient.__enter__`/`connect` raises `MCPError`; `image.save` onto the
fresh temp path raises an OS-level exception; `client.call_tool` raises
`MCPError`; or the tool call returns text. -/
inductive ZaiStep where
  | connectFails (msg : String)
  | saveFails (msg : String)
  | toolErr (msg : String)
  | toolOk (text : String)
deriving DecidableEq, Repr

/-- How the `except` clauses of the zai retry loop classify one iteration's
outcome: returned text, an `MCPError` (caught by `except MCPError`), or any
other exception (caught by `except Exception`). -/
inductive ZaiOutcome where
  | ok (text : String)
  | mcpError (msg : String)
  | otherExc (msg : String)
deriving DecidableEq, Repr

/-- Observable trace of one iteration of the zai loop: its outcome together
with whether the temp file was created (by `tempfile.NamedTemporaryFile`
with `delete=False`) and whether it was deleted again (by the
`finally: Path(temp_path).unlink(...)`) before the iteration ended. -/
structure ZaiAttempt where
  outcome : ZaiOutcome
  tempCreated : Bool
  tempDeleted : Bool
deriving DecidableEq, Repr

/-- One iteration of the zai retry loop (src/snag/vision.py lines 402-415):
`with MCPClient(...)` connects; the `with tempfile.NamedTemporaryFile`
block creates the temp file and `image.save` writes the PNG to it; then
`try: client.call_tool(...) ... finally: Path(temp_path).unlink(...)`.
The `finally` guards only the tool call, so an exception raised by
`image.save` leaves the created temp file in place; a connect failure
happens before the file exists. -/
def zaiAttempt : ZaiStep → ZaiAttempt
  | ZaiStep.connectFails m => ⟨ZaiOutcome.mcpError m, false, false⟩
  | ZaiStep.saveFails m => ⟨ZaiOutcome.otherExc m, true, false⟩
  | ZaiStep.toolErr m => ⟨ZaiOutcome.mcpError m, true, true⟩
  | ZaiStep.toolOk t => ⟨ZaiOutcome.ok t, true, true⟩

/-- The `for attempt in range(max_retries)` loop of `describe_image_zai`
(src/snag/vision.py lines 399-429), with the step taken at each attempt
supplied by `steps`. Both `except MCPError` and `except Exception` record a
`last_error` and retry; the backoff sleep `2^attempt` runs only when
`attempt < max_retries - 1` (hence the extra `maxRetries` argument); an
exhausted loop raises `last_error or VisionError("Z.AI failed after
retries")`. No HTTP request is ever issued. -/
def zaiLoop (steps : Nat → ZaiStep) (maxRetries : Nat) :
    Nat → Nat → Option VisionErr → ProviderRun
  | 0, _, lastError =>
    ⟨Except.error (lastError.getD (VisionErr.VisionError "Z.AI failed after retries")), [], 0, 0⟩
  | r + 1, attempt, _ =>
    match (zaiAttempt (steps attempt)).outcome with
    | ZaiOutcome.ok t => ⟨Except.ok t, [], 0, 1⟩
    | ZaiOutcome.mcpError m =>
      let rest := zaiLoop steps maxRetries r (attempt + 1)
        (some (VisionErr.VisionError ("Z.AI MCP error: " ++ m)))
      ⟨rest.result,
       (if attempt < maxRetries - 1 then [2 ^ attempt] else []) ++ rest.waits, 0,
       rest.attempts + 1⟩
    | ZaiOutcome.otherExc m =>
      let rest := zaiLoop steps maxRetries r (attempt + 1)
        (some (VisionErr.VisionError ("Z.AI error: " ++ m)))
      ⟨rest.result,
       (if attempt < maxRetries - 1 then [2 ^ attempt] else []) ++ rest.waits, 0,
       rest.attempts + 1⟩

/-- The outcomes the zai loop records a `last_error` for and retries
(everything except a returned text — both `except` arms continue). -/
def ZaiOutcome.retryable : ZaiOutcome → Bool
  | ZaiOutcome.ok _ => false
  | ZaiOutcome.mcpError _ => true
  | ZaiOutcome.otherExc _ => true

/-- The `last_error` the zai loop records for one iteration's outcome (the
`ok` case never reaches the assignment; it maps to the loop's fallback). -/
def ZaiOutcome.lastErr : ZaiOutcome → VisionErr
  | ZaiOutcome.ok _ => VisionErr.VisionError "Z.AI failed after retries"
  | ZaiOutcome.mcpError m => VisionErr.VisionError ("Z.AI MCP error: " ++ m)
  | ZaiOutcome.otherExc m => VisionErr.VisionError ("Z.AI error: " ++ m)

/-- `describe_image_zai` (src/snag/vision.py lines 362-429): the Node.js
version gate (`_check_node_version`, whose verdict and status message are
supplied by the environment), then the credential lookup, then the retry
loop. -/
def describe_image_zai (env : String → Option String) (nodeOk : Bool)
    (nodeMsg : String) (steps : Nat → ZaiStep) (_model : String)
    (maxRetries : Nat) : ProviderRun :=
  if ¬ nodeOk then
    ⟨Except.error (VisionErr.VisionError
      ("Z.AI provider requires Node.js v22.0.0 or later.\nStatus: " ++ nodeMsg ++
       "\nInstall from: https://nodejs.org/")), [], 0, 0⟩
  else
    match get_zai_api_key env with
    | Except.error e => ⟨Except.error e, [], 0, 0⟩
    | Except.ok _ => zaiLoop steps maxRetries maxRetries 0 none

/-- The process-level environment `describe_image` runs against: process
environment variables, the per-attempt outcome of each provider's external
interaction, and the Node.js check's verdict. -/
structure VisionWorld where
  env : String → Option String
  googleHttp : Nat → HttpOutcome
  openrouterHttp : Nat → HttpOutcome
  zaiSteps : Nat → ZaiStep
  nodeOk : Bool
  nodeMsg : String

/-- `describe_image` (src/snag/vision.py lines 432-459): dispatch on the
provider string, unknown providers raising `VisionError` at once. -/
def describe_image (w : VisionWorld) (model provider : String)
    (maxRetries : Nat) : ProviderRun :=
  if provider = "google" then
    describe_image_google w.env w.googleHttp model maxRetries
  else if provider = "openrouter" then
    describe_image_openrouter w.env w.openrouterHttp model maxRetries
  else if provider = "zai" then
    describe_image_zai w.env w.nodeOk w.nodeMsg w.zaiSteps model maxRetries
  else
    ⟨Except.error (VisionErr.VisionError
      ("Unknown provider '" ++ provider ++ "'. Available: google, openrouter, zai")), [], 0, 0⟩

/-! ## Helper lemmas -/

/-- A region that `normalizeRegion` accepts has both extents at least 5. -/
theorem normalizeRegion_extent {s e : Int × Int} {r : Region}
    (h : normalizeRegion s e = some r) :
    5 ≤ r.x2 - r.x1 ∧ 5 ≤ r.y2 - r.y1 := by
  simp only [normalizeRegion] at h
  by_cases hc : max s.1 e.1 - min s.1 e.1 < 5 ∨ max s.2 e.2 - min s.2 e.2 < 5
  · rw [if_pos hc] at h
    exact absurd h (by simp)
  · rw [if_neg hc] at h
    push_neg at hc
    have hr := Option.some.inj h
    subst hr
    exact hc

/-- Google retry loop, success after `k` retryable failures: the result is
the 200 text, one wait of `2^attempt` per failure, one HTTP call and one
attempt per entered iteration. -/
theorem googleLoop_ok (f : Nat → HttpOutcome) (t : String) :
    ∀ (k r a : Nat) (le : Option VisionErr), k < r →
      (∀ i, i < k → (f (a + i)).retryable = true) →
      f (a + k) = HttpOutcome.ok t →
      googleLoop f r a le =
        ⟨Except.ok t, (List.range' a k).map (2 ^ ·), k + 1, k + 1⟩ := by
  intro k
  induction k with
  | zero =>
    intro r a le hr _ hok
    obtain ⟨r', rfl⟩ : ∃ r', r = r' + 1 := ⟨r - 1, by omega⟩
    rw [Nat.add_zero] at hok
    simp [googleLoop, hok, List.range']
  | succ k ih =>
    intro r a le hr hretry hok
    obtain ⟨r', rfl⟩ : ∃ r', r = r' + 1 := ⟨r - 1, by omega⟩
    have h0 : (f a).retryable = true := by
      have := hretry 0 (by omega)
      rwa [Nat.add_zero] at this
    have hsh : ∀ i, i < k → (f (a + 1 + i)).retryable = true := by
      intro i hi
      have := hretry (i + 1) (by omega)
      rwa [show a + (i + 1) = a + 1 + i by omega] at this
    have hok' : f (a + 1 + k) = HttpOutcome.ok t := by
      rwa [show a + (k + 1) = a + 1 + k by omega] at hok
    have hlt : k < r' := by omega
    rw [List.range'_succ]
    cases hfa : f a with
    | ok t0 => rw [hfa] at h0; exact absurd h0 (by simp [HttpOutcome.retryable])
    | badParse e => rw [hfa] at h0; exact absurd h0 (by simp [HttpOutcome.retryable])
    | otherStatus c m => rw [hfa] at h0; exact absurd h0 (by simp [HttpOutcome.retryable])
    | status429 =>
      simp only [googleLoop, hfa]
      rw [ih r' (a + 1) _ hlt hsh hok']
      rfl
    | timeout =>
      simp only [googleLoop, hfa]
      rw [ih r' (a + 1) _ hlt hsh hok']
      rfl
    | netError e =>
      simp only [googleLoop, hfa]
      rw [ih r' (a + 1) _ hlt hsh hok']
      rfl

/-- Google retry loop, every attempt retryable: all iterations run (one
call, one wait each) and the last failure's error is raised. -/
theorem googleLoop_exhaust (f : Nat → HttpOutcome) :
    ∀ (r a : Nat) (le : Option VisionErr), 0 < r →
      (∀ i, i < r → (f (a + i)).retryable = true) →
      googleLoop f r a le =
        ⟨Except.error (f (a + (r - 1))).lastErr,
         (List.range' a r).map (2 ^ ·), r, r⟩ := by
  intro r
  induction r with
  | zero => intro a le h; omega
  | succ r ih =>
    intro a le _ hretry
    have h0 : (f a).retryable = true := by
      have := hretry 0 (by omega)
      rwa [Nat.add_zero] at this
    rcases Nat.eq_zero_or_pos r with rfl | hrpos
    · cases hfa : f a with
      | ok t0 => rw [hfa] at h0; exact absurd h0 (by simp [HttpOutcome.retryable])
      | badParse e => rw [hfa] at h0; exact absurd h0 (by simp [HttpOutcome.retryable])
      | otherStatus c m => rw [hfa] at h0; exact absurd h0 (by simp [HttpOutcome.retryable])
      | status429 => simp [googleLoop, hfa, List.range']
      | timeout => simp [googleLoop, hfa, List.range']
      | netError e => simp [googleLoop, hfa, List.range']
    · have hsh : ∀ i, i < r → (f (a + 1 + i)).retryable = true := by
        intro i hi
        have := hretry (i + 1) (by omega)
        rwa [show a + (i + 1) = a + 1 + i by omega] at this
      have hidx : a + (r + 1 - 1) = a + 1 + (r - 1) := by omega
      rw [List.range'_succ, hidx]
      cases hfa : f a with
      | ok t0 => rw [hfa] at h0; exact absurd h0 (by simp [HttpOutcome.retryable])
      | badParse e => rw [hfa] at h0; exact absurd h0 (by simp [HttpOutcome.retryable])
      | otherStatus c m => rw [hfa] at h0; exact absurd h0 (by simp [HttpOutcome.retryable])
      | status429 =>
        simp only [googleLoop, hfa]
        rw [ih (a + 1) _ hrpos hsh]
        rfl
      | timeout =>
        simp only [googleLoop, hfa]
        rw [ih (a + 1) _ hrpos hsh]
        rfl
      | netError e =>
        simp only [googleLoop, hfa]
        rw [ih (a + 1) _ hrpos hsh]
        rfl

/-- OpenRouter retry loop, success after `k` retryable failures (the loop
body is the same retry structure as the Google one). -/
theorem openrouterLoop_ok (f : Nat → HttpOutcome) (t : String) :
    ∀ (k r a : Nat) (le : Option VisionErr), k < r →
      (∀ i, i < k → (f (a + i)).retryable = true) →
      f (a + k) = HttpOutcome.ok t →
      openrouterLoop f r a le =
        ⟨Except.ok t, (List.range' a k).map (2 ^ ·), k + 1, k + 1⟩ := by
  intro k
  induction k with
  | zero =>
    intro r a le hr _ hok
    obtain ⟨r', rfl⟩ : ∃ r', r = r' + 1 := ⟨r - 1, by omega⟩
    rw [Nat.add_zero] at hok
    simp [openrouterLoop, hok, List.range']
  | succ k ih =>
    intro r a le hr hretry hok
    obtain ⟨r', rfl⟩ : ∃ r', r = r' + 1 := ⟨r - 1, by omega⟩
    have h0 : (f a).retryable = true := by
      have := hretry 0 (by omega)
      rwa [Nat.add_zero] at this
    have hsh : ∀ i, i < k → (f (a + 1 + i)).retryable = true := by
      intro i hi
      have := hretry (i + 1) (by omega)
      rwa [show a + (i + 1) = a + 1 + i by omega] at this
    have hok' : f (a + 1 + k) = HttpOutcome.ok t := by
      rwa [show a + (k + 1) = a + 1 + k by omega] at hok
    have hlt : k < r' := by omega
    rw [List.range'_succ]
    cases hfa : f a with
    | ok t0 => rw [hfa] at h0; exact absurd h0 (by simp [HttpOutcome.retryable])
    | badParse e => rw [hfa] at h0; exact absurd h0 (by simp [HttpOutcome.retryable])
    | otherStatus c m => rw [hfa] at h0; exact absurd h0 (by simp [HttpOutcome.retryable])
    | status429 =>
      simp only [openrouterLoop, hfa]
      rw [ih r' (a + 1) _ hlt hsh hok']
      rfl
    | timeout =>
      simp only [openrouterLoop, hfa]
      rw [ih r' (a + 1) _ hlt hsh hok']
      rfl
    | netError e =>
      simp only [openrouterLoop, hfa]
      rw [ih r' (a + 1) _ hlt hsh hok']
      rfl

/-- OpenRouter retry loop, every attempt retryable. -/
theorem openrouterLoop_exhaust (f : Nat → HttpOutcome) :
    ∀ (r a : Nat) (le : Option VisionErr), 0 < r →
      (∀ i, i < r → (f (a + i)).retryable = true) →
      openrouterLoop f r a le =
        ⟨Except.error (f (a + (r - 1))).lastErr,
         (List.range' a r).map (2 ^ ·), r, r⟩ := by
  intro r
  induction r with
  | zero => intro a le h; omega
  | succ r ih =>
    intro a le _ hretry
    have h0 : (f a).retryable = true := by
      have := hretry 0 (by omega)
      rwa [Nat.add_zero] at this
    rcases Nat.eq_zero_or_pos r with rfl | hrpos
    · cases hfa : f a with
      | ok t0 => rw [hfa] at h0; exact absurd h0 (by simp [HttpOutcome.retryable])
      | badParse e => rw [hfa] at h0; exact absurd h0 (by simp [HttpOutcome.retryable])
      | otherStatus c m => rw [hfa] at h0; exact absurd h0 (by simp [HttpOutcome.retryable])
      | status429 => simp [openrouterLoop, hfa, List.range']
      | timeout => simp [openrouterLoop, hfa, List.range']
      | netError e => simp [openrouterLoop, hfa, List.range']
    · have hsh : ∀ i, i < r → (f (a + 1 + i)).retryable = true := by
        intro i hi
        have := hretry (i + 1) (by omega)
        rwa [show a + (i + 1) = a + 1 + i by omega] at this
      have hidx : a + (r + 1 - 1) = a + 1 + (r - 1) := by omega
      rw [List.range'_succ, hidx]
      cases hfa : f a with
      | ok t0 => rw [hfa] at h0; exact absurd h0 (by simp [HttpOutcome.retryable])
      | badParse e => rw [hfa] at h0; exact absurd h0 (by simp [HttpOutcome.retryable])
      | otherStatus c m => rw [hfa] at h0; exact absurd h0 (by simp [HttpOutcome.retryable])
      | status429 =>
        simp only [openrouterLoop, hfa]
        rw [ih (a + 1) _ hrpos hsh]
        rfl
      | timeout =>
        simp only [openrouterLoop, hfa]
        rw [ih (a + 1) _ hrpos hsh]
        rfl
      | netError e =>
        simp only [openrouterLoop, hfa]
        rw [ih (a + 1) _ hrpos hsh]
        rfl

/-- Z.AI retry loop, success after `k` failed iterations, all of which are
early enough that the backoff guard `attempt < maxRetries - 1` holds: same
wait trace as the HTTP loops, no HTTP calls. -/
theorem zaiLoop_ok (steps : Nat → ZaiStep) (N : Nat) (t : String) :
    ∀ (k r a : Nat) (le : Option VisionErr), k < r → a + k ≤ N - 1 →
      (∀ i, i < k → (zaiAttempt (steps (a + i))).outcome.retryable = true) →
      (zaiAttempt (steps (a + k))).outcome = ZaiOutcome.ok t →
      zaiLoop steps N r a le =
        ⟨Except.ok t, (List.range' a k).map (2 ^ ·), 0, k + 1⟩ := by
  intro k
  induction k with
  | zero =>
    intro r a le hr _ _ hok
    obtain ⟨r', rfl⟩ : ∃ r', r = r' + 1 := ⟨r - 1, by omega⟩
    rw [Nat.add_zero] at hok
    simp [zaiLoop, hok, List.range']
  | succ k ih =>
    intro r a le hr hbound hretry hok
    obtain ⟨r', rfl⟩ : ∃ r', r = r' + 1 := ⟨r - 1, by omega⟩
    have h0 : (zaiAttempt (steps a)).outcome.retryable = true := by
      have := hretry 0 (by omega)
      rwa [Nat.add_zero] at this
    have hsh : ∀ i, i < k → (zaiAttempt (steps (a + 1 + i))).outcome.retryable = true := by
      intro i hi
      have := hretry (i + 1) (by omega)
      rwa [show a + (i + 1) = a + 1 + i by omega] at this
    have hok' : (zaiAttempt (steps (a + 1 + k))).outcome = ZaiOutcome.ok t := by
      rwa [show a + (k + 1) = a + 1 + k by omega] at hok
    have hlt : k < r' := by omega
    have hb' : a + 1 + k ≤ N - 1 := by omega
    have ha : a < N - 1 := by omega
    rw [List.range'_succ]
    cases hfa : (zaiAttempt (steps a)).outcome with
    | ok t0 => rw [hfa] at h0; exact absurd h0 (by simp [ZaiOutcome.retryable])
    | mcpError m =>
      simp only [zaiLoop, hfa]
      rw [ih r' (a + 1) _ hlt hb' hsh hok', if_pos ha]
      rfl
    | otherExc m =>
      simp only [zaiLoop, hfa]
      rw [ih r' (a + 1) _ hlt hb' hsh hok', if_pos ha]
      rfl

/-- Z.AI retry loop, every iteration failing: the last iteration's recorded
error is raised and exactly `r` attempts are made. -/
theorem zaiLoop_exhaust (steps : Nat → ZaiStep) (N : Nat) :
    ∀ (r a : Nat) (le : Option VisionErr), 0 < r →
      (∀ i, i < r → (zaiAttempt (steps (a + i))).outcome.retryable = true) →
      (zaiLoop steps N r a le).result =
        Except.error (zaiAttempt (steps (a + (r - 1)))).outcome.lastErr ∧
      (zaiLoop steps N r a le).attempts = r := by
  intro r
  induction r with
  | zero => intro a le h; omega
  | succ r ih =>
    intro a le _ hretry
    have h0 : (zaiAttempt (steps a)).outcome.retryable = true := by
      have := hretry 0 (by omega)
      rwa [Nat.add_zero] at this
    rcases Nat.eq_zero_or_pos r with rfl | hrpos
    · cases hfa : (zaiAttempt (steps a)).outcome with
      | ok t0 => rw [hfa] at h0; exact absurd h0 (by simp [ZaiOutcome.retryable])
      | mcpError m => simp [zaiLoop, hfa, ZaiOutcome.lastErr]
      | otherExc m => simp [zaiLoop, hfa, ZaiOutcome.lastErr]
    · have hsh : ∀ i, i < r → (zaiAttempt (steps (a + 1 + i))).outcome.retryable = true := by
        intro i hi
        have := hretry (i + 1) (by omega)
        rwa [show a + (i + 1) = a + 1 + i by omega] at this
      have hidx : a + (r + 1 - 1) = a + 1 + (r - 1) := by omega
      rw [hidx]
      obtain ⟨ihr, iha⟩ := ih (a + 1) (some (zaiAttempt (steps a)).outcome.lastErr) hrpos hsh
      cases hfa : (zaiAttempt (steps a)).outcome with
      | ok t0 => rw [hfa] at h0; exact absurd h0 (by simp [ZaiOutcome.retryable])
      | mcpError m =>
        rw [hfa] at ihr iha
        constructor
        · simp only [zaiLoop, hfa]
          exact ihr
        · simp only [zaiLoop, hfa]
          exact congrArg (· + 1) iha
      | otherExc m =>
        rw [hfa] at ihr iha
        constructor
        · simp only [zaiLoop, hfa]
          exact ihr
        · simp only [zaiLoop, hfa]
          exact congrArg (· + 1) iha

/-! ## Claims -/

/-- C2: for any two selection corner points whose horizontal and vertical
extents are both at least 5 pixels, the normalized overlay selection
satisfies x1 < x2 and y1 < y2, and normalization is independent of drag
direction; in particular the inverted drag (100,100)→(40,40) normalizes to
(40,40,100,100), of size 60 by 60. -/
theorem C2_normalize_drag_direction (s e : Int × Int)
    (hx : 5 ≤ |s.1 - e.1|) (hy : 5 ≤ |s.2 - e.2|) :
    (∃ r : Region, normalizeRegion s e = some r ∧ r.x1 < r.x2 ∧ r.y1 < r.y2) ∧
    normalizeRegion e s = normalizeRegion s e ∧
    normalizeRegion (100, 100) (40, 40) = some ⟨40, 40, 100, 100⟩ ∧
    (Region.mk 40 40 100 100).x2 - (Region.mk 40 40 100 100).x1 = 60 ∧
    (Region.mk 40 40 100 100).y2 - (Region.mk 40 40 100 100).y1 = 60 := by
  have hcond : ¬ (max s.1 e.1 - min s.1 e.1 < 5 ∨ max s.2 e.2 - min s.2 e.2 < 5) := by
    rw [max_sub_min_eq_abs', max_sub_min_eq_abs']
    push_neg
    exact ⟨hx, hy⟩
  refine ⟨?_, ?_, by decide, by decide, by decide⟩
  · refine ⟨⟨min s.1 e.1, min s.2 e.2, max s.1 e.1, max s.2 e.2⟩, ?_, ?_, ?_⟩
    · simp only [normalizeRegion]
      rw [if_neg hcond]
    · refine min_lt_max.mpr fun h => ?_
      rw [h] at hx
      simp at hx
    · refine min_lt_max.mpr fun h => ?_
      rw [h] at hy
      simp at hy
  · simp only [normalizeRegion]
    rw [min_comm e.1 s.1, min_comm e.2 s.2, max_comm e.1 s.1, max_comm e.2 s.2]

/-- Witness for C2 at the spec's concrete inverted drag. -/
theorem C2_witness :
    normalizeRegion ((100 : Int), (100 : Int)) ((40 : Int), (40 : Int)) =
      some ⟨40, 40, 100, 100⟩ :=
  (C2_normalize_drag_direction ((100 : Int), (100 : Int)) ((40 : Int), (40 : Int))
    (by decide) (by decide)).2.2.1

/-- C5: a completed drag with either extent below 5 pixels raises
`SelectionCancelled`, and whatever region the overlay capture does return
has both extents at least 5 (so never zero or negative size). -/
theorem C5_small_extent_cancelled (s e : Int × Int) (sx sy : Int)
    (sel : SelectionState) (r : Region)
    (hsmall : |s.1 - e.1| < 5 ∨ |s.2 - e.2| < 5)
    (hr : overlayFinish sel sx sy = Except.ok r) :
    overlayFinish ⟨false, some s, some e⟩ sx sy =
      Except.error CapExn.SelectionCancelled ∧
    5 ≤ r.x2 - r.x1 ∧ 5 ≤ r.y2 - r.y1 := by
  constructor
  · have hcond : max s.1 e.1 - min s.1 e.1 < 5 ∨ max s.2 e.2 - min s.2 e.2 < 5 := by
      rw [max_sub_min_eq_abs', max_sub_min_eq_abs']
      exact hsmall
    have h1 : normalizeRegion s e = none := by
      simp only [normalizeRegion]
      rw [if_pos hcond]
    simp [overlayFinish, h1]
  · simp only [overlayFinish] at hr
    by_cases hc : sel.cancelled
    · rw [if_pos hc] at hr
      exact absurd hr (by simp)
    · rw [if_neg hc] at hr
      rcases hst : sel.start with _ | s0 <;> rcases hsp : sel.stop with _ | e0 <;>
        simp only [hst, hsp] at hr
      · simp at hr
      · simp at hr
      · simp at hr
      · rcases hn : normalizeRegion s0 e0 with _ | r0 <;> simp only [hn] at hr
        · simp at hr
        · have hr0 := normalizeRegion_extent hn
          have hsub := Except.ok.inj hr
          subst hsub
          constructor
          · show (5 : Int) ≤ (r0.x2 - sx) - (r0.x1 - sx)
            omega
          · show (5 : Int) ≤ (r0.y2 - sy) - (r0.y1 - sy)
            omega

/-- Witness for C5: a 3-pixel-wide drag cancels; a successful 10×10 finish
is possible. -/
theorem C5_witness :
    overlayFinish ⟨false, some ((0 : Int), (0 : Int)), some ((3 : Int), (50 : Int))⟩ 0 0 =
      Except.error CapExn.SelectionCancelled ∧
    (5 : Int) ≤ (Region.mk 0 0 10 10).x2 - (Region.mk 0 0 10 10).x1 := by
  have h := C5_small_extent_cancelled ((0 : Int), (0 : Int)) ((3 : Int), (50 : Int)) 0 0
    ⟨false, some ((0 : Int), (0 : Int)), some ((10 : Int), (10 : Int))⟩ ⟨0, 0, 10, 10⟩
    (by decide) (by decide)
  exact ⟨h.1, h.2.1⟩

/-- C8: `detect_platform` decides by OS identifier first (win32→Windows,
darwin→macOS), then for Linux checks WAYLAND_DISPLAY, then
XDG_SESSION_TYPE = wayland, then DISPLAY, then XDG_SESSION_TYPE = x11,
defaulting to X11, and never returns Unknown for a Linux platform string. -/
theorem C8_detect_platform_order (p : String) (env : String → Option String)
    (hl : pyStartswith p "linux" = true) :
    detect_platform "win32" env = Platform.WINDOWS ∧
    detect_platform "darwin" env = Platform.MACOS ∧
    (envTruthy (env "WAYLAND_DISPLAY") = true →
      detect_platform p env = Platform.LINUX_WAYLAND) ∧
    (envTruthy (env "WAYLAND_DISPLAY") = false →
      env "XDG_SESSION_TYPE" = some "wayland" →
      detect_platform p env = Platform.LINUX_WAYLAND) ∧
    (envTruthy (env "WAYLAND_DISPLAY") = false →
      env "XDG_SESSION_TYPE" ≠ some "wayland" →
      envTruthy (env "DISPLAY") = true →
      detect_platform p env = Platform.LINUX_X11) ∧
    (envTruthy (env "WAYLAND_DISPLAY") = false →
      env "XDG_SESSION_TYPE" ≠ some "wayland" →
      envTruthy (env "DISPLAY") = false →
      env "XDG_SESSION_TYPE" = some "x11" →
      detect_platform p env = Platform.LINUX_X11) ∧
    (envTruthy (env "WAYLAND_DISPLAY") = false →
      env "XDG_SESSION_TYPE" ≠ some "wayland" →
      envTruthy (env "DISPLAY") = false →
      env "XDG_SESSION_TYPE" ≠ some "x11" →
      detect_platform p env = Platform.LINUX_X11) ∧
    detect_platform p env ≠ Platform.UNKNOWN := by
  have hw : p ≠ "win32" := by
    intro h
    rw [h] at hl
    exact absurd hl (by decide)
  have hd : p ≠ "darwin" := by
    intro h
    rw [h] at hl
    exact absurd hl (by decide)
  have key : detect_platform p env =
      (if envTruthy (env "WAYLAND_DISPLAY") then Platform.LINUX_WAYLAND
       else if env "XDG_SESSION_TYPE" = some "wayland" then Platform.LINUX_WAYLAND
       else if envTruthy (env "DISPLAY") then Platform.LINUX_X11
       else if env "XDG_SESSION_TYPE" = some "x11" then Platform.LINUX_X11
       else Platform.LINUX_X11) := by
    unfold detect_platform
    rw [if_neg hw, if_neg hd, if_pos hl]
  refine ⟨?_, ?_, ?_, ?_, ?_, ?_, ?_, ?_⟩
  · unfold detect_platform
    rw [if_pos rfl]
  · unfold detect_platform
    rw [if_neg (by decide), if_pos rfl]
  · intro h1
    rw [key, if_pos h1]
  · intro h1 h2
    rw [key, if_neg (by simp [h1]), if_pos h2]
  · intro h1 h2 h3
    rw [key, if_neg (by simp [h1]), if_neg h2, if_pos h3]
  · intro h1 h2 h3 h4
    rw [key, if_neg (by simp [h1]), if_neg h2, if_neg (by simp [h3]), if_pos h4]
  · intro h1 h2 h3 h4
    rw [key, if_neg (by simp [h1]), if_neg h2, if_neg (by simp [h3]), if_neg h4]
  · rw [key]
    split_ifs <;> decide

/-- Witness for C8 at a Wayland-flavoured environment. -/
theorem C8_witness :
    detect_platform "linux"
      (fun k => if k = "WAYLAND_DISPLAY" then some "wayland-0" else none) =
      Platform.LINUX_WAYLAND ∧
    detect_platform "win32"
      (fun k => if k = "WAYLAND_DISPLAY" then some "wayland-0" else none) =
      Platform.WINDOWS := by
  have h := C8_detect_platform_order "linux"
    (fun k => if k = "WAYLAND_DISPLAY" then some "wayland-0" else none) (by decide)
  exact ⟨h.2.2.1 (by decide), h.1⟩

/-- C6: an RPC-client blocking read whose response does not arrive within
the configured timeout kills the subprocess (terminate, escalating to kill
when the graceful wait fails) and raises a timeout `MCPError` naming the
configured timeout; the client is a total function of the event, so the
caller is never left hanging, and the subprocess is detached (`_process`
cleared) with a terminate signal always sent. -/
theorem C6_recv_timeout_kills (c : MCPClient) (pid : Nat) (g : Bool)
    (hp : c._process = some pid) :
    MCPClient._recv c (RecvEvent.timeoutExpired g) =
      (({ c with _process := none },
        if g then [KillAct.terminate pid]
        else [KillAct.terminate pid, KillAct.kill pid]),
       Except.error (MCPErr.MCPError
         ("MCP server did not respond within " ++ toString c.timeout ++ "s"))) ∧
    KillAct.terminate pid ∈ (MCPClient._recv c (RecvEvent.timeoutExpired g)).1.2 := by
  have h1 : MCPClient._recv c (RecvEvent.timeoutExpired g) =
      (({ c with _process := none },
        if g then [KillAct.terminate pid]
        else [KillAct.terminate pid, KillAct.kill pid]),
       Except.error (MCPErr.MCPError
         ("MCP server did not respond within " ++ toString c.timeout ++ "s"))) := by
    simp only [MCPClient._recv, MCPClient._kill_process, hp]
  refine ⟨h1, ?_⟩
  rw [h1]
  cases g <;> simp

/-- Witness for C6: a connected client with timeout 120 and a hung read. -/
theorem C6_witness :
    MCPClient._recv ⟨120, some 7, 1⟩ (RecvEvent.timeoutExpired true) =
      ((⟨120, none, 1⟩, [KillAct.terminate 7]),
       Except.error (MCPErr.MCPError "MCP server did not respond within 120s")) :=
  (C6_recv_timeout_kills ⟨120, some 7, 1⟩ 7 true rfl).1

/-- C9: `disconnect` is idempotent — on a freshly constructed (never
connected) client it is a no-op that sends no signal and does not raise
(the model is total, mirroring that `_kill_process` swallows every
exception), and after any disconnect the client is unconnected and a
second disconnect leaves it in exactly that state, again without signals. -/
theorem C9_disconnect_idempotent (c : MCPClient) (t : Nat) (g g' g'' : Bool) :
    MCPClient.disconnect (MCPClient.mk0 t) g'' = (MCPClient.mk0 t, []) ∧
    ((MCPClient.disconnect c g).1)._process = none ∧
    MCPClient.disconnect (MCPClient.disconnect c g).1 g' =
      ((MCPClient.disconnect c g).1, []) := by
  refine ⟨rfl, ?_, ?_⟩ <;>
    cases hp : c._process <;>
      simp [MCPClient.disconnect, MCPClient._kill_process, hp]

/-- Witness for C9 on a connected client and a fresh client. -/
theorem C9_witness :
    MCPClient.disconnect (MCPClient.mk0 60) true = (MCPClient.mk0 60, []) ∧
    ((MCPClient.disconnect ⟨60, some 5, 3⟩ false).1)._process = none :=
  ⟨(C9_disconnect_idempotent ⟨60, some 5, 3⟩ 60 false true true).1,
   (C9_disconnect_idempotent ⟨60, some 5, 3⟩ 60 false true true).2.1⟩

/-- C7: in the Wayland capture, a missing tool raises the `CaptureError`
whose message names both slurp and grim with install hints; a non-zero
slurp exit or an empty trimmed geometry raises `SelectionCancelled`; and a
non-zero grim exit raises a `CaptureError`. -/
theorem C7_wayland_error_paths (w : WaylandWorld) :
    (¬ (w.whichSlurp = true ∧ w.whichGrim = true) →
      _capture_wayland w = Except.error (CapExn.CaptureError waylandMissingToolsMsg)) ∧
    List.IsInfix "slurp".data waylandMissingToolsMsg.data ∧
    List.IsInfix "grim".data waylandMissingToolsMsg.data ∧
    List.IsInfix "Install".data waylandMissingToolsMsg.data ∧
    (w.whichSlurp = true → w.whichGrim = true → w.slurpRun.returncode ≠ 0 →
      _capture_wayland w = Except.error CapExn.SelectionCancelled) ∧
    (w.whichSlurp = true → w.whichGrim = true → pyStrip w.slurpRun.stdout = "" →
      _capture_wayland w = Except.error CapExn.SelectionCancelled) ∧
    (w.whichSlurp = true → w.whichGrim = true → w.slurpRun.returncode = 0 →
      pyStrip w.slurpRun.stdout ≠ "" → (w.grimRun (pyStrip w.slurpRun.stdout)).1 ≠ 0 →
      _capture_wayland w =
        Except.error (CapExn.CaptureError ("grim capture failed: " ++ w.grimErrStr))) := by
  refine ⟨?_, by decide, by decide, by decide, ?_, ?_, ?_⟩
  · intro h
    unfold _capture_wayland
    rw [if_pos h]
  · intro h1 h2 h3
    unfold _capture_wayland
    rw [if_neg (by simp [h1, h2]), if_pos h3]
  · intro h1 h2 h3
    unfold _capture_wayland
    rw [if_neg (by simp [h1, h2])]
    by_cases hrc : w.slurpRun.returncode ≠ 0
    · rw [if_pos hrc]
    · rw [if_neg hrc]
      simp [h3]
  · intro h1 h2 h3 h4 h5
    unfold _capture_wayland
    rw [if_neg (by simp [h1, h2]), if_neg (by simp [h3]), if_neg h4, if_pos h5]

/-- Witness for C7 across three concrete worlds (missing tools, slurp
cancellation, grim failure). -/
theorem C7_witness :
    _capture_wayland ⟨false, true, ⟨0, "1,2 3x4"⟩, fun _ => (0, []), ""⟩ =
      Except.error (CapExn.CaptureError waylandMissingToolsMsg) ∧
    _capture_wayland ⟨true, true, ⟨1, ""⟩, fun _ => (0, []), ""⟩ =
      Except.error CapExn.SelectionCancelled ∧
    _capture_wayland ⟨true, true, ⟨0, "1,2 3x4"⟩, fun _ => (1, []), "boom"⟩ =
      Except.error (CapExn.CaptureError "grim capture failed: boom") := by
  refine ⟨?_, ?_, ?_⟩
  · exact (C7_wayland_error_paths ⟨false, true, ⟨0, "1,2 3x4"⟩, fun _ => (0, []), ""⟩).1
      (by simp)
  · exact (C7_wayland_error_paths ⟨true, true, ⟨1, ""⟩, fun _ => (0, []), ""⟩).2.2.2.2.1
      rfl rfl (by decide)
  · exact (C7_wayland_error_paths
      ⟨true, true, ⟨0, "1,2 3x4"⟩, fun _ => (1, []), "boom"⟩).2.2.2.2.2.2
      rfl rfl rfl (by decide) (by decide)

/-- C3: `describe_image` fails fast before any network I/O on an invalid
provider/model combination — an unknown provider raises `VisionError` with
zero HTTP calls (and zero attempts), and provider google with an unknown
model raises `VisionError` with zero HTTP calls, whatever the environment
and whatever the HTTP layer would have answered. -/
theorem C3_invalid_combo_fails_fast (w w2 : VisionWorld)
    (model model2 provider : String) (maxRetries maxRetries2 : Nat)
    (hp1 : provider ≠ "google") (hp2 : provider ≠ "openrouter")
    (hp3 : provider ≠ "zai")
    (hm : (GOOGLE_MODELS.lookup model2).isNone = true) :
    describe_image w model provider maxRetries =
      ⟨Except.error (VisionErr.VisionError
        ("Unknown provider '" ++ provider ++ "'. Available: google, openrouter, zai")),
       [], 0, 0⟩ ∧
    describe_image w2 model2 "google" maxRetries2 =
      ⟨Except.error (VisionErr.VisionError (unknownGoogleModelMsg model2)), [], 0, 0⟩ ∧
    unknownGoogleModelMsg "gpt-4o" =
      "Unknown Google model 'gpt-4o'. Available: gemini-2.5-flash, gemini-3-flash-preview" := by
  refine ⟨?_, ?_, by rfl⟩
  · unfold describe_image
    rw [if_neg hp1, if_neg hp2, if_neg hp3]
  · unfold describe_image
    rw [if_pos rfl]
    unfold describe_image_google
    rw [if_pos hm]

/-- Witness for C3: the spec's bogus provider scenario and an unknown
Google model. -/
theorem C3_witness :
    describe_image
      ⟨fun _ => none, fun _ => HttpOutcome.status429, fun _ => HttpOutcome.status429,
       fun _ => ZaiStep.toolOk "t", true, "ok"⟩ "gemini-2.5-flash" "bogus" 3 =
      ⟨Except.error (VisionErr.VisionError
        ("Unknown provider 'bogus'. Available: google, openrouter, zai")), [], 0, 0⟩ ∧
    describe_image
      ⟨fun _ => none, fun _ => HttpOutcome.status429, fun _ => HttpOutcome.status429,
       fun _ => ZaiStep.toolOk "t", true, "ok"⟩ "gpt-4o" "google" 3 =
      ⟨Except.error (VisionErr.VisionError (unknownGoogleModelMsg "gpt-4o")), [], 0, 0⟩ ∧
    unknownGoogleModelMsg "gpt-4o" =
      "Unknown Google model 'gpt-4o'. Available: gemini-2.5-flash, gemini-3-flash-preview" := by
  have h := C3_invalid_combo_fails_fast
    ⟨fun _ => none, fun _ => HttpOutcome.status429, fun _ => HttpOutcome.status429,
     fun _ => ZaiStep.toolOk "t", true, "ok"⟩
    ⟨fun _ => none, fun _ => HttpOutcome.status429, fun _ => HttpOutcome.status429,
     fun _ => ZaiStep.toolOk "t", true, "ok"⟩
    "gemini-2.5-flash" "gpt-4o" "bogus" 3 3
    (by decide) (by decide) (by decide) (by decide)
  exact ⟨h.1, h.2.1, h.2.2⟩

/-- C10: `describe_image_google` validates the model before looking up the
credential — for an unknown model it raises the unknown-model `VisionError`
with no HTTP traffic even when GEMINI_API_KEY is absent, an environment in
which the credential lookup itself fails, so the model error takes
precedence over the missing-credential error. -/
theorem C10_model_error_precedes_key_error (env : String → Option String)
    (f : Nat → HttpOutcome) (model : String) (maxRetries : Nat)
    (hm : (GOOGLE_MODELS.lookup model).isNone = true)
    (hk : env "GEMINI_API_KEY" = none) :
    describe_image_google env f model maxRetries =
      ⟨Except.error (VisionErr.VisionError (unknownGoogleModelMsg model)), [], 0, 0⟩ ∧
    get_gemini_api_key env =
      Except.error (VisionErr.VisionError
        ("GEMINI_API_KEY not found.\nGet an API key at: https://aistudio.google.com/apikey\n" ++
         "Run 'snag --setup' to configure.")) := by
  constructor
  · unfold describe_image_google
    rw [if_pos hm]
  · unfold get_gemini_api_key
    rw [hk]

/-- Witness for C10: unknown model with an empty environment. -/
theorem C10_witness :
    describe_image_google (fun _ => none) (fun _ => HttpOutcome.status429) "gpt-4o" 3 =
      ⟨Except.error (VisionErr.VisionError (unknownGoogleModelMsg "gpt-4o")), [], 0, 0⟩ :=
  (C10_model_error_precedes_key_error (fun _ => none) (fun _ => HttpOutcome.status429)
    "gpt-4o" 3 (by decide) rfl).1

/-- C4 counterexample: the claim says the temp file is deleted on every
exit path, but when `image.save` raises (an exception exit path of the
iteration), the already-created temp file is not deleted — the
`finally: unlink` guards only the tool call. -/
theorem C4_counterexample :
    (zaiAttempt (ZaiStep.saveFails "disk full")).tempCreated = true ∧
    (zaiAttempt (ZaiStep.saveFails "disk full")).tempDeleted = false := by
  constructor <;> rfl

/-- C4 (amended): once the image has been written and the tool invocation
entered, the temp file is deleted on every exit path of that invocation —
tool success and tool error (`MCPError`) alike — before control returns;
only a failure of `image.save` itself (before the guarded block) leaves
the created file behind, and a connect failure creates no file at all. -/
theorem C4_temp_file_deleted (step : ZaiStep)
    (h : ∀ m, step ≠ ZaiStep.saveFails m)
    (hc : (zaiAttempt step).tempCreated = true) :
    (zaiAttempt step).tempDeleted = true := by
  cases step with
  | connectFails m => exact absurd hc (by simp [zaiAttempt])
  | saveFails m => exact absurd rfl (h m)
  | toolErr m => rfl
  | toolOk t => rfl

/-- Witness for C4 (amended): a tool error still deletes the file. -/
theorem C4_witness :
    (zaiAttempt (ZaiStep.toolErr "server busy")).tempDeleted = true :=
  C4_temp_file_deleted (ZaiStep.toolErr "server busy") (fun m => by simp) rfl

/-- C1: for every provider in {google, openrouter, zai} and maxRetries
`N ≥ 1` (implied by `k < N`), `describe_image` applies the same
retry/backoff policy. On a run whose first `k` attempts fail retryably
(timeout, network failure, HTTP 429 — for zai, `MCPError` or any other
exception) and whose attempt `k` returns a 200 payload, every provider
returns that payload's text after exactly `k` waits of `2^0, ..., 2^(k-1)`
seconds and `k+1` attempts; on a run whose `N` attempts all fail retryably,
every provider raises the last encountered error after exactly `N`
attempts, none further. -/
theorem C1_uniform_retry_backoff
    (w wf : VisionWorld) (model : String) (N k : Nat) (t : String)
    (gkey okey zkey : String)
    (hk : k < N)
    (hmodel : (GOOGLE_MODELS.lookup model).isNone = false)
    (hg : get_gemini_api_key w.env = Except.ok gkey)
    (ho : get_openrouter_api_key w.env = Except.ok okey)
    (hz : get_zai_api_key w.env = Except.ok zkey)
    (hnode : w.nodeOk = true)
    (hfe : wf.env = w.env) (hfn : wf.nodeOk = true)
    (hgr : ∀ i, i < k → (w.googleHttp i).retryable = true)
    (hgo : w.googleHttp k = HttpOutcome.ok t)
    (hor : ∀ i, i < k → (w.openrouterHttp i).retryable = true)
    (hoo : w.openrouterHttp k = HttpOutcome.ok t)
    (hzr : ∀ i, i < k → (zaiAttempt (w.zaiSteps i)).outcome.retryable = true)
    (hzo : (zaiAttempt (w.zaiSteps k)).outcome = ZaiOutcome.ok t)
    (hgrf : ∀ i, i < N → (wf.googleHttp i).retryable = true)
    (horf : ∀ i, i < N → (wf.openrouterHttp i).retryable = true)
    (hzrf : ∀ i, i < N → (zaiAttempt (wf.zaiSteps i)).outcome.retryable = true) :
    describe_image w model "google" N =
      ⟨Except.ok t, (List.range k).map (2 ^ ·), k + 1, k + 1⟩ ∧
    describe_image w model "openrouter" N =
      ⟨Except.ok t, (List.range k).map (2 ^ ·), k + 1, k + 1⟩ ∧
    describe_image w model "zai" N =
      ⟨Except.ok t, (List.range k).map (2 ^ ·), 0, k + 1⟩ ∧
    (describe_image wf model "google" N).result =
      Except.error (wf.googleHttp (N - 1)).lastErr ∧
    (describe_image wf model "google" N).attempts = N ∧
    (describe_image wf model "openrouter" N).result =
      Except.error (wf.openrouterHttp (N - 1)).lastErr ∧
    (describe_image wf model "openrouter" N).attempts = N ∧
    (describe_image wf model "zai" N).result =
      Except.error (zaiAttempt (wf.zaiSteps (N - 1))).outcome.lastErr ∧
    (describe_image wf model "zai" N).attempts = N := by
  have hNpos : 0 < N := by omega
  have dg : describe_image w model "google" N = googleLoop w.googleHttp N 0 none := by
    unfold describe_image describe_image_google
    rw [if_pos rfl, if_neg (by simp [hmodel]), hg]
  have dor : describe_image w model "openrouter" N =
      openrouterLoop w.openrouterHttp N 0 none := by
    unfold describe_image describe_image_openrouter
    rw [if_neg (by decide), if_pos rfl, ho]
  have dz : describe_image w model "zai" N = zaiLoop w.zaiSteps N N 0 none := by
    unfold describe_image describe_image_zai
    rw [if_neg (by decide), if_neg (by decide), if_pos rfl,
      if_neg (by simp [hnode]), hz]
  have dgf : describe_image wf model "google" N = googleLoop wf.googleHttp N 0 none := by
    unfold describe_image describe_image_google
    rw [if_pos rfl, if_neg (by simp [hmodel]), hfe, hg]
  have dorf : describe_image wf model "openrouter" N =
      openrouterLoop wf.openrouterHttp N 0 none := by
    unfold describe_image describe_image_openrouter
    rw [if_neg (by decide), if_pos rfl, hfe, ho]
  have dzf : describe_image wf model "zai" N = zaiLoop wf.zaiSteps N N 0 none := by
    unfold describe_image describe_image_zai
    rw [if_neg (by decide), if_neg (by decide), if_pos rfl,
      if_neg (by simp [hfn]), hfe, hz]
  have hgr0 : ∀ i, i < k → (w.googleHttp (0 + i)).retryable = true := by
    intro i hi
    rw [Nat.zero_add]
    exact hgr i hi
  have hor0 : ∀ i, i < k → (w.openrouterHttp (0 + i)).retryable = true := by
    intro i hi
    rw [Nat.zero_add]
    exact hor i hi
  have hzr0 : ∀ i, i < k → (zaiAttempt (w.zaiSteps (0 + i))).outcome.retryable = true := by
    intro i hi
    rw [Nat.zero_add]
    exact hzr i hi
  have hgrf0 : ∀ i, i < N → (wf.googleHttp (0 + i)).retryable = true := by
    intro i hi
    rw [Nat.zero_add]
    exact hgrf i hi
  have horf0 : ∀ i, i < N → (wf.openrouterHttp (0 + i)).retryable = true := by
    intro i hi
    rw [Nat.zero_add]
    exact horf i hi
  have hzrf0 : ∀ i, i < N → (zaiAttempt (wf.zaiSteps (0 + i))).outcome.retryable = true := by
    intro i hi
    rw [Nat.zero_add]
    exact hzrf i hi
  have hgo0 : w.googleHttp (0 + k) = HttpOutcome.ok t := by
    rw [Nat.zero_add]
    exact hgo
  have hoo0 : w.openrouterHttp (0 + k) = HttpOutcome.ok t := by
    rw [Nat.zero_add]
    exact hoo
  have hzo0 : (zaiAttempt (w.zaiSteps (0 + k))).outcome = ZaiOutcome.ok t := by
    rw [Nat.zero_add]
    exact hzo
  have hzb : 0 + k ≤ N - 1 := by omega
  have hge := googleLoop_exhaust wf.googleHttp N 0 none hNpos hgrf0
  have hoe := openrouterLoop_exhaust wf.openrouterHttp N 0 none hNpos horf0
  have hze := zaiLoop_exhaust wf.zaiSteps N N 0 none hNpos hzrf0
  refine ⟨?_, ?_, ?_, ?_, ?_, ?_, ?_, ?_, ?_⟩
  · rw [dg, googleLoop_ok w.googleHttp t k N 0 none hk hgr0 hgo0,
      List.range_eq_range']
  · rw [dor, openrouterLoop_ok w.openrouterHttp t k N 0 none hk hor0 hoo0,
      List.range_eq_range']
  · rw [dz, zaiLoop_ok w.zaiSteps N t k N 0 none hk hzb hzr0 hzo0,
      List.range_eq_range']
  · rw [dgf, hge]
    simp [Nat.zero_add]
  · rw [dgf, hge]
  · rw [dorf, hoe]
    simp [Nat.zero_add]
  · rw [dorf, hoe]
  · rw [dzf]
    rw [show (0 : Nat) + (N - 1) = N - 1 from Nat.zero_add _] at hze
    exact hze.1
  · rw [dzf]
    exact hze.2

/-- An environment holding all three provider credentials (used by the C1
witness worlds). -/
def envWithAllKeys : String → Option String := fun v =>
  if v = "GEMINI_API_KEY" then some "g"
  else if v = "OPENROUTER_API_KEY" then some "o"
  else if v = "Z_AI_API_KEY" then some "z"
  else none

/-- C1 witness world: two retryable failures then a 200 on every provider. -/
def wSucc : VisionWorld :=
  ⟨envWithAllKeys,
   fun i => if i < 2 then HttpOutcome.status429 else HttpOutcome.ok "desc",
   fun i => if i < 2 then HttpOutcome.timeout else HttpOutcome.ok "desc",
   fun i => if i < 2 then ZaiStep.toolErr "busy" else ZaiStep.toolOk "desc",
   true, "Node.js v22.1.0"⟩

/-- C1 witness world: every attempt fails retryably on every provider. -/
def wFail : VisionWorld :=
  ⟨envWithAllKeys,
   fun _ => HttpOutcome.timeout,
   fun _ => HttpOutcome.netError "connection reset",
   fun _ => ZaiStep.saveFails "disk full",
   true, "Node.js v22.1.0"⟩

/-- Witness for C1 at maxRetries 3 with two failures then a 200, and at
three consecutive failures. -/
theorem C1_witness :
    describe_image wSucc "gemini-2.5-flash" "google" 3 =
      ⟨Except.ok "desc", [1, 2], 3, 3⟩ ∧
    describe_image wSucc "gemini-2.5-flash" "openrouter" 3 =
      ⟨Except.ok "desc", [1, 2], 3, 3⟩ ∧
    describe_image wSucc "gemini-2.5-flash" "zai" 3 =
      ⟨Except.ok "desc", [1, 2], 0, 3⟩ ∧
    (describe_image wFail "gemini-2.5-flash" "google" 3).result =
      Except.error (VisionErr.VisionError "Request timed out") ∧
    (describe_image wFail "gemini-2.5-flash" "google" 3).attempts = 3 ∧
    (describe_image wFail "gemini-2.5-flash" "openrouter" 3).result =
      Except.error (VisionErr.VisionError "Network error: connection reset") ∧
    (describe_image wFail "gemini-2.5-flash" "zai" 3).result =
      Except.error (VisionErr.VisionError "Z.AI error: disk full") := by
  have h := C1_uniform_retry_backoff wSucc wFail "gemini-2.5-flash" 3 2 "desc"
    "g" "o" "z" (by decide) (by decide) rfl rfl rfl rfl rfl rfl
    (by decide) rfl (by decide) rfl (by decide) rfl
    (by decide) (by decide) (by decide)
  exact ⟨h.1, h.2.1, h.2.2.1, h.2.2.2.1, h.2.2.2.2.1, h.2.2.2.2.2.1,
    h.2.2.2.2.2.2.2.1⟩

end Snag
